import Mathlib

/-!
Shallow embedding of `src/UKF_Odom.py` (class `UKF_Odometry`), an Unscented
Kalman Filter fusing an IMU yaw rate, four wheel speeds and a commanded
velocity into a planar pose/velocity estimate.

Modelling conventions:
* floating point numbers are modelled as real numbers;
* a state vector is `Fin 6 → ℝ`, a measurement vector is `Fin 5 → ℝ`;
* the numpy library call `np.linalg.cholesky(self.state_cov)` is an external
  routine; its result (the lower Cholesky factor) enters the embedding as an
  explicit parameter `L` of the sigma-point construction and of the step
  function;
* the ROS transport (publishers, subscribers, `tf`) is out of scope; the
  callback is a pure function from the persisted filter state and one
  synchronized input triple to the new filter state and an optional outgoing
  odometry message.  The unused EKF comparison branch of `predict`
  (`Gx`, `EKF_pred_cov`) is not part of any published behaviour and is kept
  alongside the motion model.
-/

set_option maxHeartbeats 1000000
set_option maxRecDepth 8000

namespace UKFOdom

noncomputable section

open Matrix Real

/-- A state vector `[x, y, theta, vx, vy, omega]`. -/
abbrev StateVec := Fin 6 → ℝ

/-- A measurement vector `[yaw_rate, w0, w1, w2, w3]`. -/
abbrev Meas := Fin 5 → ℝ

/-- The commanded velocity input (`cmd_vel.linear.x`, `cmd_vel.linear.y`,
`cmd_vel.angular.z`). -/
structure CmdVel where
  linear_x : ℝ
  linear_y : ℝ
  angular_z : ℝ

/-- One IMU sample: `header.stamp.to_sec()`, `angular_velocity.z` and
`angular_velocity_covariance[8]` (the yaw-rate variance). -/
structure ImuSample where
  stamp : ℝ
  angular_velocity_z : ℝ
  angular_velocity_covariance_8 : ℝ

/-- One wheel-encoder sample: the four entries of
`wheel_encoder_data.velocity`. -/
structure WheelSample where
  velocity : Fin 4 → ℝ

/-- The nonlinear motion model of `UKF_Odometry.predict` (lines 132-138):
`predicted_state` as a function of the input state, the commanded velocity and
`dt`. -/
def predictState (state : StateVec) (cmd : CmdVel) (dt : ℝ) : StateVec :=
  ![state 0 + (cmd.linear_x * Real.cos (state 2) - cmd.linear_y * Real.sin (state 2)) * dt,
    state 1 + (cmd.linear_y * Real.cos (state 2) + cmd.linear_x * Real.sin (state 2)) * dt,
    state 2 + cmd.angular_z * dt,
    cmd.linear_x,
    cmd.linear_y,
    cmd.angular_z]

/-- The Jacobian `Gx` of `UKF_Odometry.predict` (lines 124-129), used only for
the EKF comparison branch. -/
def Gx (state : StateVec) (cmd : CmdVel) (dt : ℝ) : Matrix (Fin 6) (Fin 6) ℝ :=
  ![![1, 0, -(cmd.linear_x * Real.sin (state 2) + cmd.linear_y * Real.cos (state 2)) * dt,
     dt * Real.cos (state 2), -dt * Real.sin (state 2), 0],
    ![0, 1, (cmd.linear_x * Real.cos (state 2) - cmd.linear_y * Real.sin (state 2)) * dt,
     dt * Real.sin (state 2), dt * Real.cos (state 2), 0],
    ![0, 0, 1, 0, 0, dt],
    ![0, 0, 0, 1, 0, 0],
    ![0, 0, 0, 0, 1, 0],
    ![0, 0, 0, 0, 0, 1]]

/-- The full return value of `UKF_Odometry.predict`: the propagated state and
the EKF-linearized covariance `Gx @ state_cov @ Gx.T` (line 140); the second
component is never used by the UKF path. -/
def predict (state : StateVec) (cmd : CmdVel) (dt : ℝ)
    (state_cov : Matrix (Fin 6) (Fin 6) ℝ) : StateVec × Matrix (Fin 6) (Fin 6) ℝ :=
  (predictState state cmd dt, Gx state cmd dt * state_cov * (Gx state cmd dt)ᵀ)

/-- UKF parameter `k = 3` (line 62). -/
def kappa : ℝ := 3

/-- UKF parameter `lambda_value = 7 - n` with `n = 6` (lines 58, 64). -/
def lambda_value : ℝ := 7 - 6

/-- The sigma-point scale factor `math.sqrt((n - k) + lambda_value)` used at
lines 74 and 78, with `n = 6`. -/
def sigmaScale : ℝ := Real.sqrt ((6 - kappa) + lambda_value)

/-- The 13 sigma points of lines 67-78: point 0 is the current state, points
`1..6` are `state + sigmaScale * cov_sqrt[:, i]` for columns `i = 0..5`, and
points `7..12` are `state - sigmaScale * cov_sqrt[:, i]`.  `L` stands for
`cov_sqrt = np.linalg.cholesky(self.state_cov)`. -/
def sigmaPoints (state : StateVec) (L : Matrix (Fin 6) (Fin 6) ℝ) (i : Fin 13) : StateVec :=
  if _h0 : (i : ℕ) = 0 then state
  else if h6 : (i : ℕ) ≤ 6 then
    fun j => state j + sigmaScale * L j ⟨(i : ℕ) - 1, by omega⟩
  else
    fun j => state j - sigmaScale * L j ⟨(i : ℕ) - 7, by have := i.isLt; omega⟩

/-- The mean weights of lines 80-83: every entry is `1/(2*(n + lambda_value))`
except entry 0, which is `lambda_value/(lambda_value + n)` (`n = 6`). -/
def meanWeights (i : Fin 13) : ℝ :=
  if (i : ℕ) = 0 then lambda_value / (lambda_value + 6)
  else 1 / (2 * (6 + lambda_value))

/-- The covariance weights of lines 81-84, a copy of the mean weights with the
same overwritten entry 0. -/
def covWeights (i : Fin 13) : ℝ :=
  if (i : ℕ) = 0 then lambda_value / (lambda_value + 6)
  else 1 / (2 * (6 + lambda_value))

/-- The propagated sigma point `pred = self.predict(sigma[i], cmd_vel, dt)[0]`
of line 91. -/
def propagated (state : StateVec) (L : Matrix (Fin 6) (Fin 6) ℝ) (cmd : CmdVel)
    (dt : ℝ) (i : Fin 13) : StateVec :=
  predictState (sigmaPoints state L i) cmd dt

/-- The committed predicted mean `pred_state = np.sum(weighted_pred, axis=0)`
of lines 92 and 102: the weighted sum of the propagated sigma points. -/
def predState (state : StateVec) (L : Matrix (Fin 6) (Fin 6) ℝ) (cmd : CmdVel)
    (dt : ℝ) : StateVec :=
  ∑ i : Fin 13, meanWeights i • propagated state L cmd dt i

/-- The reference mean `mean_pred = self.predict(self.state, cmd_vel, dt)[0]`
of line 88, used at line 93 as the centre of the covariance terms: the direct
propagation of the current state (sigma point 0), not the recombined mean. -/
def meanPred (state : StateVec) (cmd : CmdVel) (dt : ℝ) : StateVec :=
  predictState state cmd dt

/-- The predicted covariance committed by the code (lines 93-100):
`pred_cov = sum_i cov_weights[i] * outer(mean_pred - pred_i, mean_pred - pred_i)`
with `mean_pred` the direct propagation of the current state. -/
def predCov (state : StateVec) (L : Matrix (Fin 6) (Fin 6) ℝ) (cmd : CmdVel)
    (dt : ℝ) : Matrix (Fin 6) (Fin 6) ℝ :=
  ∑ i : Fin 13, covWeights i •
    vecMulVec (meanPred state cmd dt - propagated state L cmd dt i)
      (meanPred state cmd dt - propagated state L cmd dt i)

/-- Modelled from the spec (recombination contract, section 4.3): the predicted
covariance about the recombined weighted mean,
`sum_i w_cov[i] * outer(xbar - pred_i, xbar - pred_i)` with
`xbar = sum_i w_mean[i] * pred_i` the committed predicted mean.  Stated for
comparison with `predCov`, which is what the code computes. -/
def specPredCov (state : StateVec) (L : Matrix (Fin 6) (Fin 6) ℝ) (cmd : CmdVel)
    (dt : ℝ) : Matrix (Fin 6) (Fin 6) ℝ :=
  ∑ i : Fin 13, covWeights i •
    vecMulVec (predState state L cmd dt - propagated state L cmd dt i)
      (predState state L cmd dt - propagated state L cmd dt i)

/-- The measurement vector of lines 48-50: `measurement[0]` is the IMU yaw
rate, `measurement[1:]` the four wheel speeds. -/
def measurementVec (imu : ImuSample) (wheel : WheelSample) : Meas :=
  Matrix.vecCons imu.angular_velocity_z wheel.velocity

/-- The measurement covariance of lines 51-52: `z_cov = 3*np.eye(5)` followed
by `z_cov[0,0] = imu_data.angular_velocity_covariance[8]`. -/
def z_cov (yaw_rate_variance : ℝ) : Matrix (Fin 5) (Fin 5) ℝ :=
  fun i j =>
    if (i : ℕ) = 0 ∧ (j : ℕ) = 0 then yaw_rate_variance
    else if i = j then 3 else 0

/-- Robot geometry constant (line 148). -/
def wheel_radius : ℝ := 0.0762

/-- Robot geometry constant (line 149). -/
def wheel_pair_separation : ℝ := 0.488

/-- Robot geometry constant (line 150). -/
def wheel_separation : ℝ := 0.44715

/-- Robot geometry constant (line 151). -/
def wheel_width : ℝ := 0.05

/-- Derived geometry term `b = 0.5*(wheel_separation + wheel_width)`
(line 153). -/
def b : ℝ := 0.5 * (wheel_separation + wheel_width)

/-- Derived geometry term `a = 0.5*(wheel_radius + wheel_pair_separation)`
(line 154). -/
def a : ℝ := 0.5 * (wheel_radius + wheel_pair_separation)

/-- Derived geometry term `roller_wheel_effect = (a+b)/wheel_radius`
(line 155). -/
def roller_wheel_effect : ℝ := (a + b) / wheel_radius

/-- The observation matrix `C` of lines 158-167, written out after the
in-place sign flips: starting from zeros, `C[0,5] = 1`;
`C[1:,3] = C[1:,4] = 1/wheel_radius`; `C[1:,5] = roller_wheel_effect`; then
`C[1,4]`, `C[4,4]`, `C[1,5]`, `C[3,5]` are negated. -/
def C : Matrix (Fin 5) (Fin 6) ℝ :=
  ![![0, 0, 0, 0, 0, 1],
    ![0, 0, 0, 1 / wheel_radius, -(1 / wheel_radius), -roller_wheel_effect],
    ![0, 0, 0, 1 / wheel_radius, 1 / wheel_radius, roller_wheel_effect],
    ![0, 0, 0, 1 / wheel_radius, 1 / wheel_radius, -roller_wheel_effect],
    ![0, 0, 0, 1 / wheel_radius, -(1 / wheel_radius), roller_wheel_effect]]

/-- The regularizer `epsilon = 1e-6` (line 169). -/
def epsilon : ℝ := 1e-6

/-- The innovation covariance
`innovation_cov = C @ pred_cov @ C.T + z_cov + epsilon*np.eye(5)` (line 171). -/
def innovation_cov (pred_cov : Matrix (Fin 6) (Fin 6) ℝ)
    (zc : Matrix (Fin 5) (Fin 5) ℝ) : Matrix (Fin 5) (Fin 5) ℝ :=
  C * pred_cov * Cᵀ + zc + epsilon • 1

/-- The Kalman gain `K = pred_cov @ C.T @ np.linalg.inv(innovation_cov)`
(line 173); `np.linalg.inv` is modelled by the Mathlib matrix inverse, which
agrees with the true inverse whenever the determinant is a unit. -/
def K (pred_cov : Matrix (Fin 6) (Fin 6) ℝ)
    (zc : Matrix (Fin 5) (Fin 5) ℝ) : Matrix (Fin 6) (Fin 5) ℝ :=
  pred_cov * Cᵀ * (innovation_cov pred_cov zc)⁻¹

/-- The update step `UKF_Odometry.innovation` (lines 144-176): posterior state
`pred_state + K @ (z - C @ pred_state)` and posterior covariance
`(np.eye(6) - K @ C) @ pred_cov + epsilon*np.eye(6)`. -/
def innovation (pred_state : StateVec) (pred_cov : Matrix (Fin 6) (Fin 6) ℝ)
    (z : Meas) (zc : Matrix (Fin 5) (Fin 5) ℝ) :
    StateVec × Matrix (Fin 6) (Fin 6) ℝ :=
  (pred_state + (K pred_cov zc).mulVec (z - C.mulVec pred_state),
   (1 - K pred_cov zc * C) * pred_cov + epsilon • 1)

/-- The pose covariance built by `publish_odometry` (lines 191-198): a 6×6
matrix populated from the (x, y, theta) block of the state covariance at rows
and columns 0, 1, 5, zero elsewhere. -/
def pose_cov (P : Matrix (Fin 6) (Fin 6) ℝ) : Matrix (Fin 6) (Fin 6) ℝ :=
  ![![P 0 0, P 0 1, 0, 0, 0, P 0 2],
    ![P 0 1, P 1 1, 0, 0, 0, P 1 2],
    ![0, 0, 0, 0, 0, 0],
    ![0, 0, 0, 0, 0, 0],
    ![0, 0, 0, 0, 0, 0],
    ![P 0 2, P 1 2, 0, 0, 0, P 2 2]]

/-- The twist covariance built by `publish_odometry` (lines 205-210): a 6×6
matrix populated from the (vx, vy, omega) block of the state covariance at
rows and columns 0, 1, 5, zero elsewhere (the code reads `state_cov[5,3]` for
both `[0,5]` and `[5,0]`, and `state_cov[4,5]`, `state_cov[5,4]` for `[1,5]`,
`[5,1]`). -/
def twist_cov (P : Matrix (Fin 6) (Fin 6) ℝ) : Matrix (Fin 6) (Fin 6) ℝ :=
  ![![P 3 3, 0, 0, 0, 0, P 5 3],
    ![0, P 4 4, 0, 0, 0, P 4 5],
    ![0, 0, 0, 0, 0, 0],
    ![0, 0, 0, 0, 0, 0],
    ![0, 0, 0, 0, 0, 0],
    ![P 5 3, P 5 4, 0, 0, 0, P 5 5]]

/-- The outgoing odometry message of `publish_odometry` (lines 178-214).  The
orientation is kept as the 4×4 homogeneous rotation matrix of lines 180-182
(the `tf.transformations.quaternion_from_matrix` conversion is an external
library call). -/
structure OdomMsg where
  stamp : ℝ
  position_x : ℝ
  position_y : ℝ
  orientation_matrix : Matrix (Fin 4) (Fin 4) ℝ
  pose_covariance : Matrix (Fin 6) (Fin 6) ℝ
  twist_linear_x : ℝ
  twist_linear_y : ℝ
  twist_angular_z : ℝ
  twist_covariance : Matrix (Fin 6) (Fin 6) ℝ

/-- The output projection `UKF_Odometry.publish_odometry` (lines 178-214) as a
function of the committed state, the committed covariance and the current
timestamp: it only reads `self.state` and `self.state_cov` and builds the
message. -/
def publish_odometry (state : StateVec) (state_cov : Matrix (Fin 6) (Fin 6) ℝ)
    (current_t : ℝ) : OdomMsg where
  stamp := current_t
  position_x := state 0
  position_y := state 1
  orientation_matrix :=
    ![![Real.cos (state 2), -Real.sin (state 2), 0, 0],
      ![Real.sin (state 2), Real.cos (state 2), 0, 0],
      ![0, 0, 1, 0],
      ![0, 0, 0, 1]]
  pose_covariance := pose_cov state_cov
  twist_linear_x := state 3
  twist_linear_y := state 4
  twist_angular_z := state 5
  twist_covariance := twist_cov state_cov

/-- The persisted filter state: `self.state`, `self.state_cov` and
`self.prev_time` (lines 30-35). -/
structure FilterState where
  state : StateVec
  state_cov : Matrix (Fin 6) (Fin 6) ℝ
  prev_time : Option ℝ

/-- The initialization of `UKF_Odometry.__init__` (lines 30-35):
`state = 0`, `state_cov = 0.1*np.eye(6)`, `prev_time = None`. -/
def initState : FilterState :=
  { state := 0, state_cov := (0.1 : ℝ) • 1, prev_time := none }

/-- One full UKF step on explicit data: sigma-point generation, propagation,
recombination and update, i.e. lines 57-103 of `callback` for a given current
state, Cholesky factor `L` of the current covariance, command, `dt`,
measurement and measurement covariance. -/
def ukfStep (x : StateVec) (L : Matrix (Fin 6) (Fin 6) ℝ) (cmd : CmdVel)
    (dt : ℝ) (z : Meas) (zc : Matrix (Fin 5) (Fin 5) ℝ) :
    StateVec × Matrix (Fin 6) (Fin 6) ℝ :=
  innovation (predState x L cmd dt) (predCov x L cmd dt) z zc

/-- The synchronized callback `UKF_Odometry.callback` (lines 37-115) as a pure
step function.  On the first sample (`prev_time = None`) it records the
timestamp and returns with no message (lines 41-43).  Otherwise it computes
`dt`, runs the UKF step on the persisted pair, commits the posterior
(lines 111-112) and publishes (line 115).  `L` stands for the external call
`np.linalg.cholesky(self.state_cov)` at line 68. -/
def callback (fs : FilterState) (imu : ImuSample) (wheel : WheelSample)
    (cmd : CmdVel) (L : Matrix (Fin 6) (Fin 6) ℝ) :
    FilterState × Option OdomMsg :=
  match fs.prev_time with
  | none => ({ fs with prev_time := some imu.stamp }, none)
  | some prev =>
    let dt := imu.stamp - prev
    let z := measurementVec imu wheel
    let zc := z_cov imu.angular_velocity_covariance_8
    let post := ukfStep fs.state L cmd dt z zc
    ({ state := post.1, state_cov := post.2, prev_time := some imu.stamp },
     some (publish_odometry post.1 post.2 imu.stamp))

/-! Helper lemmas -/

/-- The sigma-point scale factor evaluates to 2. -/
theorem sigmaScale_eq_two : sigmaScale = 2 := by
  have h : ((6 : ℝ) - kappa) + lambda_value = 2 ^ 2 := by
    simp [kappa, lambda_value]; norm_num
  rw [sigmaScale, h, Real.sqrt_sq (by norm_num)]

/-- At state 0, covariance square-root `I`, command `(1, 0, 0)` and `dt = 1`,
the first component of the recombined predicted mean is `6/7 + cos(2)/7`:
the two sigma points displaced in the heading coordinate propagate through
`cos` nonlinearly. -/
theorem predState_comp0_concrete :
    predState (0 : StateVec) 1 ⟨1, 0, 0⟩ 1 0 = 6 / 7 + Real.cos 2 / 7 := by
  rw [predState, Finset.sum_apply]
  simp only [Fin.sum_univ_succ, meanWeights, lambda_value, propagated, sigmaPoints,
    sigmaScale_eq_two, predictState, Matrix.one_apply, Pi.zero_apply, Pi.smul_apply,
    smul_eq_mul]
  norm_num [Real.cos_neg, Real.sin_neg, Fin.ext_iff]
  ring

/-! Claim theorems -/

/-- C3: the sigma-point generator produces 13 points with point 0 equal to the
state, points 1..6 equal to `x + sqrt((n-kappa)+lambda)*L[:,i]` and points
7..12 equal to `x - sqrt((n-kappa)+lambda)*L[:,i]` for columns `i = 0..5`,
where `kappa = 3`, `lambda = 7 - 6 = 1`, so the scale factor is
`sqrt(4) = 2`.  `L` is the lower Cholesky factor of the covariance supplied by
the external `np.linalg.cholesky` call. -/
theorem sigma_points_ok (x : StateVec) (L : Matrix (Fin 6) (Fin 6) ℝ) :
    kappa = 3 ∧ lambda_value = 1 ∧ sigmaScale = 2 ∧
    sigmaPoints x L 0 = x ∧
    (∀ i : Fin 6, sigmaPoints x L ⟨(i : ℕ) + 1, by have := i.isLt; omega⟩ =
      fun j => x j + 2 * L j i) ∧
    (∀ i : Fin 6, sigmaPoints x L ⟨(i : ℕ) + 7, by have := i.isLt; omega⟩ =
      fun j => x j - 2 * L j i) := by
  refine ⟨rfl, by norm_num [lambda_value], sigmaScale_eq_two, by simp [sigmaPoints], ?_, ?_⟩
  · intro i
    have hi := i.isLt
    funext j
    simp only [sigmaPoints, sigmaScale_eq_two]
    rw [dif_neg (by omega), dif_pos (by omega)]
    congr 1
  · intro i
    have hi := i.isLt
    funext j
    simp only [sigmaPoints, sigmaScale_eq_two]
    rw [dif_neg (by omega), dif_neg (by omega)]
    congr 1

/-- C4: both weight vectors have length 13 (they are families over `Fin 13`),
entry 0 equal to `lambda/(lambda+n) = 1/7` and every other entry equal to
`1/(2*(n+lambda)) = 1/14`, for `n = 6`, `lambda = 1`. -/
theorem weights_ok :
    (∀ i : Fin 13, meanWeights i = if (i : ℕ) = 0 then 1 / 7 else 1 / 14) ∧
    (∀ i : Fin 13, covWeights i = if (i : ℕ) = 0 then 1 / 7 else 1 / 14) ∧
    lambda_value / (lambda_value + 6) = 1 / 7 ∧
    1 / (2 * (6 + lambda_value)) = 1 / 14 := by
  refine ⟨?_, ?_, by norm_num [lambda_value], by norm_num [lambda_value]⟩ <;>
    · intro i
      simp only [meanWeights, covWeights, lambda_value]
      split <;> norm_num

/-- C6: the motion model returns exactly
`[x + (cvx*cos(theta) - cvy*sin(theta))*dt, y + (cvy*cos(theta) + cvx*sin(theta))*dt,
theta + comega*dt, cvx, cvy, comega]`; position and heading are integrated from
the current heading and the velocity components are overwritten by the
command.  Each of the 13 per-step invocations is the application of this one
pure function to its sigma point, so identical inputs yield identical
outputs. -/
theorem predict_motion_model (s : StateVec) (cmd : CmdVel) (dt : ℝ) :
    predictState s cmd dt 0 =
      s 0 + (cmd.linear_x * Real.cos (s 2) - cmd.linear_y * Real.sin (s 2)) * dt ∧
    predictState s cmd dt 1 =
      s 1 + (cmd.linear_y * Real.cos (s 2) + cmd.linear_x * Real.sin (s 2)) * dt ∧
    predictState s cmd dt 2 = s 2 + cmd.angular_z * dt ∧
    predictState s cmd dt 3 = cmd.linear_x ∧
    predictState s cmd dt 4 = cmd.linear_y ∧
    predictState s cmd dt 5 = cmd.angular_z ∧
    (∀ (x : StateVec) (L : Matrix (Fin 6) (Fin 6) ℝ) (i : Fin 13),
      propagated x L cmd dt i = predictState (sigmaPoints x L i) cmd dt) := by
  refine ⟨rfl, rfl, rfl, rfl, rfl, rfl, fun x L i => rfl⟩

/-- C7: the mean weights reconstruct the original state from the sigma points:
the weighted sum of the 13 sigma points with the mean weights equals the
current state, for every state and every square-root matrix. -/
theorem sigma_mean_reconstruction (x : StateVec) (L : Matrix (Fin 6) (Fin 6) ℝ) :
    ∑ i : Fin 13, meanWeights i • sigmaPoints x L i = x := by
  funext j
  rw [Finset.sum_apply]
  simp only [Fin.sum_univ_succ, meanWeights, sigmaPoints, lambda_value, sigmaScale_eq_two]
  norm_num
  ring

/-- C10: the measurement covariance passed to the update is exactly
`diag(v, 3, 3, 3, 3)` where `v` is the IMU yaw-rate variance of the current
sample; all off-diagonal entries are zero. -/
theorem z_cov_ok (v : ℝ) : z_cov v = Matrix.diagonal ![v, 3, 3, 3, 3] := by
  ext i j
  fin_cases i <;> fin_cases j <;> simp [z_cov, Matrix.diagonal]

/-- C9: the output projection is a function of the committed posterior pair
only (`publish_odometry` takes the committed state and covariance and returns
a message, mutating nothing), the published pose covariance is zero at every
entry outside rows/columns 0, 1, 5, and the published twist covariance is
zero at every entry outside rows/columns 0, 1, 5. -/
theorem publish_projection_ok (x : StateVec) (P : Matrix (Fin 6) (Fin 6) ℝ)
    (t : ℝ) (i j : Fin 6)
    (h : (i ≠ 0 ∧ i ≠ 1 ∧ i ≠ 5) ∨ (j ≠ 0 ∧ j ≠ 1 ∧ j ≠ 5)) :
    (publish_odometry x P t).pose_covariance i j = 0 ∧
    (publish_odometry x P t).twist_covariance i j = 0 := by
  fin_cases i <;> fin_cases j <;>
    simp_all [publish_odometry, pose_cov, twist_cov, Matrix.vecHead, Matrix.vecTail] <;>
    rfl

/-- Witness for C9 at a concrete entry outside the populated block. -/
theorem publish_projection_ok_witness :
    (((2 : Fin 6) ≠ 0 ∧ (2 : Fin 6) ≠ 1 ∧ (2 : Fin 6) ≠ 5) ∨
      ((0 : Fin 6) ≠ 0 ∧ (0 : Fin 6) ≠ 1 ∧ (0 : Fin 6) ≠ 5)) ∧
    ((publish_odometry 0 1 0).pose_covariance 2 0 = 0 ∧
     (publish_odometry 0 1 0).twist_covariance 2 0 = 0) :=
  ⟨by decide, publish_projection_ok 0 1 0 2 0 (by decide)⟩

/-- C8: on the very first synchronized input (`prev_time = None`) the callback
records the timestamp and returns with no published estimate, leaving state
and covariance untouched; the filter is initialized with `x = 0` and
`P = 0.1*I`; and every later step reads the persisted pair and commits the UKF
posterior computed from it. -/
theorem first_sample_ok (fs : FilterState) (imu : ImuSample)
    (wheel : WheelSample) (cmd : CmdVel) (L : Matrix (Fin 6) (Fin 6) ℝ)
    (h : fs.prev_time = none) :
    callback fs imu wheel cmd L = ({ fs with prev_time := some imu.stamp }, none) ∧
    initState.state = 0 ∧ initState.state_cov = (0.1 : ℝ) • 1 ∧
    (∀ (gs : FilterState) (t0 : ℝ), gs.prev_time = some t0 →
      callback gs imu wheel cmd L =
        ({ state := (ukfStep gs.state L cmd (imu.stamp - t0) (measurementVec imu wheel)
              (z_cov imu.angular_velocity_covariance_8)).1,
           state_cov := (ukfStep gs.state L cmd (imu.stamp - t0) (measurementVec imu wheel)
              (z_cov imu.angular_velocity_covariance_8)).2,
           prev_time := some imu.stamp },
         some (publish_odometry
            (ukfStep gs.state L cmd (imu.stamp - t0) (measurementVec imu wheel)
              (z_cov imu.angular_velocity_covariance_8)).1
            (ukfStep gs.state L cmd (imu.stamp - t0) (measurementVec imu wheel)
              (z_cov imu.angular_velocity_covariance_8)).2
            imu.stamp))) := by
  refine ⟨?_, rfl, rfl, ?_⟩
  · simp [callback, h]
  · intro gs t0 hg
    simp [callback, hg]

/-- Witness for C8 starting from the initial filter state. -/
theorem first_sample_ok_witness :
    initState.prev_time = none ∧
    callback initState ⟨0, 0, 0⟩ ⟨0⟩ ⟨0, 0, 0⟩ 1 =
      ({ initState with prev_time := some (0 : ℝ) }, none) :=
  ⟨rfl, (first_sample_ok initState ⟨0, 0, 0⟩ ⟨0⟩ ⟨0, 0, 0⟩ 1 rfl).1⟩

/-- C2 refutation: the callback contains no check on the sign of `dt`.  At a
step whose IMU timestamp equals the previous one (`dt = 0`) the step is not
rejected: the filter still runs and an odometry message is published. -/
theorem dt_zero_still_publishes :
    ((callback { state := 0, state_cov := (0.1 : ℝ) • 1, prev_time := some 5 }
        ⟨5, 0, 0⟩ ⟨0⟩ ⟨0, 0, 0⟩ 1).2).isSome = true := rfl

/-- C5: under invertibility of the regularized innovation covariance
`S = C*P*Cᵀ + R + eps*I` (`eps = 1e-6`), the update computes the Kalman gain
`K = P*Cᵀ*S⁻¹` (with `S⁻¹` a genuine two-sided inverse), the posterior state
`x + K*(z - C*x)` and the posterior covariance `(I - K*C)*P + eps*I`, with `C`
the fixed 5×6 observation matrix built from the robot geometry constants. -/
theorem innovation_ok (xb : StateVec) (Pb : Matrix (Fin 6) (Fin 6) ℝ)
    (z : Meas) (R : Matrix (Fin 5) (Fin 5) ℝ)
    (h : IsUnit (C * Pb * Cᵀ + R + epsilon • 1).det) :
    epsilon = 1e-6 ∧
    (C * Pb * Cᵀ + R + epsilon • 1) * (C * Pb * Cᵀ + R + epsilon • 1)⁻¹ = 1 ∧
    (C * Pb * Cᵀ + R + epsilon • 1)⁻¹ * (C * Pb * Cᵀ + R + epsilon • 1) = 1 ∧
    innovation xb Pb z R =
      (xb + (Pb * Cᵀ * (C * Pb * Cᵀ + R + epsilon • 1)⁻¹).mulVec (z - C.mulVec xb),
       (1 - Pb * Cᵀ * (C * Pb * Cᵀ + R + epsilon • 1)⁻¹ * C) * Pb + epsilon • 1) :=
  ⟨rfl, Matrix.mul_nonsing_inv _ h, Matrix.nonsing_inv_mul _ h, rfl⟩

/-- Witness for C5 at `P = 0`, `R = I`, where the innovation covariance is
`(1 + eps) * I` and its determinant is the unit `(1 + eps)^5`. -/
theorem innovation_ok_witness :
    IsUnit ((C * (0 : Matrix (Fin 6) (Fin 6) ℝ) * Cᵀ + 1 + epsilon • 1).det) ∧
    innovation 0 0 0 1 =
      ((0 : StateVec) + ((0 : Matrix (Fin 6) (Fin 6) ℝ) * Cᵀ *
          (C * (0 : Matrix (Fin 6) (Fin 6) ℝ) * Cᵀ + 1 + epsilon • 1)⁻¹).mulVec
          ((0 : Meas) - C.mulVec 0),
       (1 - (0 : Matrix (Fin 6) (Fin 6) ℝ) * Cᵀ *
          (C * (0 : Matrix (Fin 6) (Fin 6) ℝ) * Cᵀ + 1 + epsilon • 1)⁻¹ * C) * 0 +
         epsilon • 1) := by
  have e1 : C * (0 : Matrix (Fin 6) (Fin 6) ℝ) * Cᵀ + 1 + epsilon • 1 =
      ((1 + epsilon : ℝ) • 1 : Matrix (Fin 5) (Fin 5) ℝ) := by
    rw [Matrix.mul_zero, Matrix.zero_mul, add_smul, one_smul]
    abel
  have h : IsUnit ((C * (0 : Matrix (Fin 6) (Fin 6) ℝ) * Cᵀ + 1 + epsilon • 1).det) := by
    rw [e1]
    simp only [Matrix.det_smul, Matrix.det_one, Fintype.card_fin, mul_one]
    exact isUnit_iff_ne_zero.2 (by norm_num [epsilon])
  exact ⟨h, (innovation_ok 0 0 0 1 h).2.2.2⟩

/-- C1 refutation: the covariance recombination of the code centres the outer
products on `mean_pred` (the direct propagation of the current state, line 88)
rather than on the recombined weighted mean `pred_state` committed as the
prediction (line 102).  At state 0, covariance `I` (Cholesky factor `I`),
command `(1, 0, 0)` and `dt = 1` the two matrices differ, so the committed
predicted covariance is not the weighted sum of outer products about the
recombined mean. -/
theorem pred_cov_uses_stale_mean :
    predCov 0 1 ⟨1, 0, 0⟩ 1 ≠ specPredCov 0 1 ⟨1, 0, 0⟩ 1 := by
  have hpi := Real.pi_gt_three
  have hs : 0 < Real.sin 1 := Real.sin_pos_of_pos_of_lt_pi one_pos (by linarith)
  have h1 : Real.cos 2 = 2 * Real.cos 1 ^ 2 - 1 := by
    have h := Real.cos_two_mul 1
    norm_num at h
    exact h
  have h2 : Real.sin 1 ^ 2 + Real.cos 1 ^ 2 = 1 := Real.sin_sq_add_cos_sq 1
  have hc : Real.cos 2 < 1 := by nlinarith
  intro hEq
  have h00 := congrFun (congrFun hEq 0) 0
  simp only [predCov, specPredCov, Matrix.sum_apply, Matrix.smul_apply,
    Matrix.vecMulVec_apply, Pi.sub_apply, smul_eq_mul] at h00
  rw [predState_comp0_concrete] at h00
  simp only [Fin.sum_univ_succ, covWeights, lambda_value, meanPred, propagated, sigmaPoints,
    sigmaScale_eq_two, predictState, Matrix.one_apply, Pi.zero_apply] at h00
  norm_num [Real.cos_neg, Real.sin_neg, Fin.ext_iff] at h00
  nlinarith [h00, mul_pos (sub_pos.2 hc) (sub_pos.2 hc)]

end

end UKFOdom
